import Mathlib

/-!
# Verification of the player-statistics pipeline (`csv_to_player_stats.py`)

Shallow embedding of the aggregation pipeline that turns a table of chess-game
rows into one statistics row per player.

Modelling conventions, fixed once for the whole file:

* A pandas `DataFrame` keyed by player is an association list `List (String × α)`
  whose payload type `α` is the (typed) record of its non-key columns.
* Numeric cells are rationals (`ℚ`); the source works with Python floats, whose
  rounding is irrelevant to every property treated here.  A cell that pandas may
  hold as NaN is `Option ℚ` with `none` for NaN.
* `df.groupby(k).agg(...)` (with the default `sort=True`) produces one row per
  distinct key, keys sorted ascending; `pd.merge(..., how='outer')` keys its
  result by the lexicographically sorted union of both key sets (pandas `merge`
  documents: "outer: use union of keys from both frames, sort keys
  lexicographically"); `.fillna(0)` afterwards replaces every NaN cell of the
  merged frame (both cells of rows absent from one side and NaN cells already
  present, such as a one-observation variance) by `0`.
* `pd.merge(..., how='left')` keeps the left rows in order and attaches the
  right payload as an `Option` (no `fillna` follows the two `how='left'` merges
  in the source).
* `df.sort_values(by, ascending=False)` (default `kind='quicksort'`) is modelled
  after pandas' `nargsort`: the values (and row indices) are reversed *before*
  the ascending argsort and the resulting indexer is reversed *after*, so the
  two reversals cancel on tied rows and the descending sort keeps tied rows in
  their original relative order — numpy's default argsort degenerates to a
  stable insertion sort on small arrays, making this exact for small tables.
-/

namespace ChessStats

attribute [local semireducible] Rat.add Rat.mul Rat.inv Rat.sub

/-- A row of the input game table, with the required CSV columns of the script:
one played game, identified by the two player names, with Elo ratings, result
scores, move counts and the four per-side quality metrics. -/
structure Game where
  White : String
  Black : String
  WhiteElo : ℚ
  BlackElo : ℚ
  WhiteResult : ℚ
  BlackResult : ℚ
  white_move_number : ℚ
  black_move_number : ℚ
  white_gi : ℚ
  black_gi : ℚ
  white_gi_raw : ℚ
  black_gi_raw : ℚ
  white_gpl : ℚ
  black_gpl : ℚ
  white_acpl : ℚ
  black_acpl : ℚ
  deriving DecidableEq

/-- The key column (`'Player'`) of a per-player table. -/
def keys (t : List (String × α)) : List String := t.map Prod.fst

/-- The row of a per-player table holding the given player, if any (pandas key
lookup; the tables built here never repeat a key). -/
def lookup (t : List (String × α)) (p : String) : Option α :=
  (t.find? fun r => r.1 == p).map Prod.snd

/-- Lexicographic code-point comparison of character lists: Python's (and
pandas') string `<`. -/
def ltCharList : List Char → List Char → Bool
  | _, [] => false
  | [], _ :: _ => true
  | a :: as, b :: bs =>
    if a.val.toNat < b.val.toNat then true
    else if b.val.toNat < a.val.toNat then false
    else ltCharList as bs

/-- Python's string `≤`: `s ≤ t` iff not `t < s`. -/
def strLe (s t : String) : Prop := ltCharList t.data s.data = false

instance : DecidableRel strLe := fun s t => by
  unfold strLe; infer_instance

/-- Sorted distinct keys: the group keys of a pandas `groupby` (default
`sort=True`) and the key union of an outer merge, sorted lexicographically. -/
def sortedKeys (l : List String) : List String :=
  (List.insertionSort strLe l).dedup

/-- `calculate_sum` (lines 31–34): `df.groupby(group_col).agg({value_col: 'sum'})`
— one row per distinct value of `group_col`, holding the sum of `value_col`
over that group's rows.  The source's `prefix` argument only renames the value
column, which the typed embedding does not need. -/
def calculate_sum (df : List Game) (group_col : Game → String) (value_col : Game → ℚ) :
    List (String × ℚ) :=
  (sortedKeys (df.map group_col)).map fun p =>
    (p, ((df.filter fun g => group_col g == p).map value_col).sum)

/-- `calculate_games` (lines 36–39): `df[player_col].value_counts()` — the
number of rows in which each player occupies the given column.  `value_counts`
orders its rows by descending count; the only consumer immediately outer-merges
this table, which re-keys by the sorted key union, so the embedding normalises
the row order to sorted keys. -/
def calculate_games (df : List Game) (player_col : Game → String) : List (String × ℚ) :=
  (sortedKeys (df.map player_col)).map fun p =>
    (p, ((df.filter fun g => player_col g == p).length : ℚ))

/-- One `pd.merge(t1, t2, on='Player', how='outer').fillna(0)` step: the result
is keyed by the sorted union of both key sets, and a row absent from one side
contributes that side's fill value (`0`, or a record of zeros). -/
def mergeOuter (t1 : List (String × α)) (t2 : List (String × β)) (d1 : α) (d2 : β) :
    List (String × α × β) :=
  (sortedKeys (keys t1 ++ keys t2)).map fun p =>
    (p, (lookup t1 p).getD d1, (lookup t2 p).getD d2)

/-- The three columns of the `total_games` table (lines 41–44). -/
structure TotalGamesRow where
  White_games : ℚ
  Black_games : ℚ
  total_game_count : ℚ
  deriving DecidableEq

/-- `calculate_total_games` (lines 41–44): outer-merge the two count tables,
fill absences with 0, and add `total_game_count` as the sum of the two counts. -/
def calculate_total_games (white_games black_games : List (String × ℚ)) :
    List (String × TotalGamesRow) :=
  (mergeOuter white_games black_games 0 0).map fun r =>
    (r.1, ⟨r.2.1, r.2.2, r.2.1 + r.2.2⟩)

/-- `white_moves` (line 48). -/
def white_moves (df : List Game) : List (String × ℚ) :=
  calculate_sum df (fun g => g.White) (fun g => g.white_move_number)

/-- `black_moves` (line 49). -/
def black_moves (df : List Game) : List (String × ℚ) :=
  calculate_sum df (fun g => g.Black) (fun g => g.black_move_number)

/-- `calculate_total_moves` (lines 46–52): per-color move sums, outer-merged
with zero fill, added, and projected onto `['Player', 'total_moves']`. -/
def calculate_total_moves (df : List Game) : List (String × ℚ) :=
  (mergeOuter (white_moves df) (black_moves df) 0 0).map fun r => (r.1, r.2.1 + r.2.2)

/-- A sample sorted ascending (used by the median). -/
def sortQ (l : List ℚ) : List ℚ := List.insertionSort (· ≤ ·) l

/-- pandas `Series.median`: the middle element of the sorted sample, or the mean
of the two middle elements for an even sample size; NaN on an empty sample. -/
def medianQ (l : List ℚ) : Option ℚ :=
  let s := sortQ l
  let n := s.length
  if n = 0 then none
  else if n % 2 = 1 then some (s.getD (n / 2) 0)
  else some ((s.getD (n / 2 - 1) 0 + s.getD (n / 2) 0) / 2)

/-- pandas `Series.mean` of a sample: sum divided by size.  (In `ℚ` the empty
sample gives `0/0 = 0`; pandas groupby never forms an empty group, so the
difference from pandas' NaN is unobservable here.) -/
def meanQ (l : List ℚ) : ℚ := l.sum / l.length

/-- pandas `Series.var` with the default `ddof = 1`: the sum of squared
deviations from the mean divided by `n - 1`, NaN (`none`) when the sample has
at most one element — a single observation has no degrees of freedom.  Total:
the undefined case is a value, not a failure. -/
def varQ (l : List ℚ) : Option ℚ :=
  if l.length ≤ 1 then none
  else some ((l.map fun x => (x - meanQ l) ^ 2).sum / ((l.length : ℚ) - 1))

/-- The three statistics columns produced by `calculate_statistics` for one
metric.  `std` is the square root of `var`, which is irrational in general; no
property treated in this file depends on the numeric value of a defined `std`,
only on whether the cell is NaN, so the model carries the variance as the
payload of the `std` cell — it is `none` (NaN) exactly when pandas' `std` is
NaN (both are NaN precisely on samples of at most one observation). -/
structure StatsRow where
  median : Option ℚ
  var : Option ℚ
  std : Option ℚ
  deriving DecidableEq

/-- `calculate_statistics` (lines 54–60): group the pooled per-game
observations `(Player, value)` by player and compute median, variance and
standard deviation of each player's sample. -/
def calculate_statistics (obs : List (String × ℚ)) : List (String × StatsRow) :=
  (sortedKeys (obs.map Prod.fst)).map fun p =>
    (p, let sample := (obs.filter fun r => r.1 == p).map Prod.snd
        ⟨medianQ sample, varQ sample, varQ sample⟩)

/-- The pooled observation table for one metric (lines 138–141): the White-side
rows `(White, white_col)` followed by the Black-side rows `(Black, black_col)`,
each game contributing exactly one observation per side. -/
def combined_metric (df : List Game) (white_col black_col : Game → ℚ) :
    List (String × ℚ) :=
  df.map (fun g => (g.White, white_col g)) ++ df.map (fun g => (g.Black, black_col g))

/-- `white_opponent_elo_sum` (line 65): `df.groupby('White')['BlackElo'].sum()`. -/
def white_opponent_elo_sum (df : List Game) : List (String × ℚ) :=
  calculate_sum df (fun g => g.White) (fun g => g.BlackElo)

/-- `black_opponent_elo_sum` (line 66): `df.groupby('Black')['WhiteElo'].sum()`. -/
def black_opponent_elo_sum (df : List Game) : List (String × ℚ) :=
  calculate_sum df (fun g => g.Black) (fun g => g.WhiteElo)

/-- `calculate_opponent_elo_sums` (lines 62–73): for each player, the sum of
`BlackElo` over their White games and of `WhiteElo` over their Black games,
outer-merged with zero fill and added. -/
def calculate_opponent_elo_sums (df : List Game) : List (String × ℚ) :=
  (mergeOuter (white_opponent_elo_sum df) (black_opponent_elo_sum df) 0 0).map fun r =>
    (r.1, r.2.1 + r.2.2)

/-- `calculate_avg_opponent_elo` (lines 75–79): `pd.merge` with the default
`how='inner'` keeps the left rows (in left order) whose key also appears on the
right, and divides the opponent-Elo sum by that player's `total_game_count`. -/
def calculate_avg_opponent_elo (opponent_elo_sums : List (String × ℚ))
    (total_games : List (String × TotalGamesRow)) : List (String × ℚ) :=
  opponent_elo_sums.filterMap fun r =>
    (lookup total_games r.1).map fun tg => (r.1, r.2 / tg.total_game_count)

/-- Python's built-in `round(x, 0)`: round half to even (banker's rounding). -/
def pythonRound (q : ℚ) : ℤ :=
  if q - ⌊q⌋ < 1 / 2 then ⌊q⌋
  else if q - ⌊q⌋ > 1 / 2 then ⌊q⌋ + 1
  else if ⌊q⌋ % 2 = 0 then ⌊q⌋ else ⌊q⌋ + 1

/-- `white_elo_avg` (line 83): `df.groupby('White')['WhiteElo'].mean()`. -/
def white_elo_avg (df : List Game) : List (String × ℚ) :=
  (sortedKeys (df.map fun g => g.White)).map fun p =>
    (p, meanQ ((df.filter fun g => g.White == p).map fun g => g.WhiteElo))

/-- `black_elo_avg` (line 84): `df.groupby('Black')['BlackElo'].mean()`. -/
def black_elo_avg (df : List Game) : List (String × ℚ) :=
  (sortedKeys (df.map fun g => g.Black)).map fun p =>
    (p, meanQ ((df.filter fun g => g.Black == p).map fun g => g.BlackElo))

/-- `calculate_average_elo` (lines 81–87): per-color Elo means, outer-merged
with zero fill, and the `Elo` column from the row-wise rule
`round((w + b) / 2 if w > 0 and b > 0 else max(w, b), 0)`. -/
def calculate_average_elo (df : List Game) : List (String × ℚ) :=
  (mergeOuter (white_elo_avg df) (black_elo_avg df) 0 0).map fun r =>
    (r.1, (pythonRound (if 0 < r.2.1 ∧ 0 < r.2.2 then (r.2.1 + r.2.2) / 2
                        else max r.2.1 r.2.2) : ℚ))

/-! ## The per-color tables built by `main_stats` (lines 119–136) -/

def white_gi_sum (df : List Game) : List (String × ℚ) :=
  calculate_sum df (fun g => g.White) (fun g => g.white_gi)

def black_gi_sum (df : List Game) : List (String × ℚ) :=
  calculate_sum df (fun g => g.Black) (fun g => g.black_gi)

def white_gi_raw_sum (df : List Game) : List (String × ℚ) :=
  calculate_sum df (fun g => g.White) (fun g => g.white_gi_raw)

def black_gi_raw_sum (df : List Game) : List (String × ℚ) :=
  calculate_sum df (fun g => g.Black) (fun g => g.black_gi_raw)

def white_gpl_sum (df : List Game) : List (String × ℚ) :=
  calculate_sum df (fun g => g.White) (fun g => g.white_gpl)

def black_gpl_sum (df : List Game) : List (String × ℚ) :=
  calculate_sum df (fun g => g.Black) (fun g => g.black_gpl)

def white_acpl_sum (df : List Game) : List (String × ℚ) :=
  calculate_sum df (fun g => g.White) (fun g => g.white_acpl)

def black_acpl_sum (df : List Game) : List (String × ℚ) :=
  calculate_sum df (fun g => g.Black) (fun g => g.black_acpl)

def white_result_sum (df : List Game) : List (String × ℚ) :=
  calculate_sum df (fun g => g.White) (fun g => g.WhiteResult)

def black_result_sum (df : List Game) : List (String × ℚ) :=
  calculate_sum df (fun g => g.Black) (fun g => g.BlackResult)

def white_games (df : List Game) : List (String × ℚ) :=
  calculate_games df fun g => g.White

def black_games (df : List Game) : List (String × ℚ) :=
  calculate_games df fun g => g.Black

def total_games (df : List Game) : List (String × TotalGamesRow) :=
  calculate_total_games (white_games df) (black_games df)

/-! ## Dispersion statistics over pooled observations (lines 138–146) -/

def gi_stats (df : List Game) : List (String × StatsRow) :=
  calculate_statistics (combined_metric df (fun g => g.white_gi) (fun g => g.black_gi))

def gi_raw_stats (df : List Game) : List (String × StatsRow) :=
  calculate_statistics (combined_metric df (fun g => g.white_gi_raw) (fun g => g.black_gi_raw))

def gpl_stats (df : List Game) : List (String × StatsRow) :=
  calculate_statistics (combined_metric df (fun g => g.white_gpl) (fun g => g.black_gpl))

def acpl_stats (df : List Game) : List (String × StatsRow) :=
  calculate_statistics (combined_metric df (fun g => g.white_acpl) (fun g => g.black_acpl))

/-! ## `total_sums` (lines 148–155) -/

/-- The columns of the `total_sums` frame after lines 151–155. -/
structure TotalSumsRow where
  white_gi_sum : ℚ
  black_gi_sum : ℚ
  white_gi_raw_sum : ℚ
  black_gi_raw_sum : ℚ
  white_gpl_sum : ℚ
  black_gpl_sum : ℚ
  white_acpl_sum : ℚ
  black_acpl_sum : ℚ
  white_result_sum : ℚ
  black_result_sum : ℚ
  White_games : ℚ
  Black_games : ℚ
  total_game_count : ℚ
  total_moves : ℚ
  total_gi_sum : ℚ
  total_gi_raw_sum : ℚ
  total_gpl_sum : ℚ
  total_acpl_sum : ℚ
  Points : ℚ
  deriving DecidableEq

/-- Names the merged cells of one `total_sums` row (the column layout after the
eleven outer merges of line 150) and adds the five total columns of lines
151–155. -/
def mkTotalSumsRow
    (v : ((((((((((ℚ × ℚ) × ℚ) × ℚ) × ℚ) × ℚ) × ℚ) × ℚ) × ℚ) × ℚ) × TotalGamesRow) × ℚ) :
    TotalSumsRow :=
  match v with
  | (((((((((((wgi, bgi), wgr), bgr), wgpl), bgpl), wacpl), bacpl), wres), bres), tg), tm) =>
    { white_gi_sum := wgi, black_gi_sum := bgi
      white_gi_raw_sum := wgr, black_gi_raw_sum := bgr
      white_gpl_sum := wgpl, black_gpl_sum := bgpl
      white_acpl_sum := wacpl, black_acpl_sum := bacpl
      white_result_sum := wres, black_result_sum := bres
      White_games := tg.White_games, Black_games := tg.Black_games
      total_game_count := tg.total_game_count, total_moves := tm
      total_gi_sum := wgi + bgi, total_gi_raw_sum := wgr + bgr
      total_gpl_sum := wgpl + bgpl, total_acpl_sum := wacpl + bacpl
      Points := wres + bres }

/-- `merge_dataframes(sums + [total_games, total_moves])` (lines 95–99 applied at
line 150) followed by the five added total columns (lines 151–155): the twelve
tables are outer-merged left-to-right with `fillna(0)` after each step; absent
cells are zero-filled, and the totals are the sums of the two per-color
columns. -/
def total_sums (df : List Game) : List (String × TotalSumsRow) :=
  let m1 := mergeOuter (white_gi_sum df) (black_gi_sum df) 0 0
  let m2 := mergeOuter m1 (white_gi_raw_sum df) (0, 0) 0
  let m3 := mergeOuter m2 (black_gi_raw_sum df) ((0, 0), 0) 0
  let m4 := mergeOuter m3 (white_gpl_sum df) (((0, 0), 0), 0) 0
  let m5 := mergeOuter m4 (black_gpl_sum df) ((((0, 0), 0), 0), 0) 0
  let m6 := mergeOuter m5 (white_acpl_sum df) (((((0, 0), 0), 0), 0), 0) 0
  let m7 := mergeOuter m6 (black_acpl_sum df) ((((((0, 0), 0), 0), 0), 0), 0) 0
  let m8 := mergeOuter m7 (white_result_sum df) (((((((0, 0), 0), 0), 0), 0), 0), 0) 0
  let m9 := mergeOuter m8 (black_result_sum df) ((((((((0, 0), 0), 0), 0), 0), 0), 0), 0) 0
  let m10 := mergeOuter m9 (total_games df)
    (((((((((0, 0), 0), 0), 0), 0), 0), 0), 0), 0) ⟨0, 0, 0⟩
  let m11 := mergeOuter m10 (calculate_total_moves df)
    ((((((((((0, 0), 0), 0), 0), 0), 0), 0), 0), 0), ⟨0, 0, 0⟩) 0
  m11.map fun r => (r.1, mkTotalSumsRow r.2)

/-! ## `player_stats` assembly (lines 157–176) -/

/-- Dispersion cells after the zero-fill of line 157's merges: plain numbers. -/
structure FilledStats where
  median : ℚ
  var : ℚ
  std : ℚ
  deriving DecidableEq

/-- `fillna(0)` on the three dispersion cells of one player. -/
def fillStats (s : StatsRow) : FilledStats :=
  ⟨s.median.getD 0, s.var.getD 0, s.std.getD 0⟩

/-- The all-NaN stats row: what an outer merge attaches to a player absent from
a statistics table, before `fillna`. -/
def emptyStats : StatsRow := ⟨none, none, none⟩

/-- The all-zero `total_sums` row: `fillna(0)` on a player absent from the left
frame of line 157's first merge. -/
def zeroTotalSums : TotalSumsRow :=
  ⟨0, 0, 0, 0, 0, 0, 0, 0, 0, 0, 0, 0, 0, 0, 0, 0, 0, 0, 0⟩

/-- The `player_stats` frame right after line 157. -/
structure PlayerStatsBase where
  sums : TotalSumsRow
  gi : FilledStats
  gi_raw : FilledStats
  gpl : FilledStats
  acpl : FilledStats
  deriving DecidableEq

/-- Names the merged cells of one `player_stats` row after line 157's merges
and applies the `fillna(0)` zero fill to the dispersion cells. -/
def mkPlayerStatsBase
    (v : (((TotalSumsRow × StatsRow) × StatsRow) × StatsRow) × StatsRow) : PlayerStatsBase :=
  match v with
  | ((((ts, sgi), sgiraw), sgpl), sacpl) =>
    ⟨ts, fillStats sgi, fillStats sgiraw, fillStats sgpl, fillStats sacpl⟩

/-- Line 157: `merge_dataframes([total_sums, gi_stats, gi_raw_stats, gpl_stats,
acpl_stats])`.  Each step is an outer merge followed by `fillna(0)`; `fillna`
zero-fills both the cells of rows absent from one side and the NaN dispersion
cells (one-observation variance/std) of matched rows — the model keeps the
`Option` cells through the chain and applies the fill in the final map, which
yields the same frame because nothing reads the cells in between. -/
def player_stats_base (df : List Game) : List (String × PlayerStatsBase) :=
  let s1 := mergeOuter (total_sums df) (gi_stats df) zeroTotalSums emptyStats
  let s2 := mergeOuter s1 (gi_raw_stats df) (zeroTotalSums, emptyStats) emptyStats
  let s3 := mergeOuter s2 (gpl_stats df) ((zeroTotalSums, emptyStats), emptyStats) emptyStats
  let s4 := mergeOuter s3 (acpl_stats df)
    (((zeroTotalSums, emptyStats), emptyStats), emptyStats) emptyStats
  s4.map fun r => (r.1, mkPlayerStatsBase r.2)

/-- `player_stats` after `calculate_averages` (lines 101–106, applied at 160). -/
structure PlayerStatsAvg extends PlayerStatsBase where
  avg_gi : ℚ
  avg_gi_raw : ℚ
  avg_gpl : ℚ
  avg_acpl : ℚ
  deriving DecidableEq

/-- `calculate_averages` (lines 101–106): each per-game average is the
corresponding total sum divided by `total_game_count`. -/
def calculate_averages (t : List (String × PlayerStatsBase)) :
    List (String × PlayerStatsAvg) :=
  t.map fun r =>
    (r.1, { toPlayerStatsBase := r.2
            avg_gi := r.2.sums.total_gi_sum / r.2.sums.total_game_count
            avg_gi_raw := r.2.sums.total_gi_raw_sum / r.2.sums.total_game_count
            avg_gpl := r.2.sums.total_gpl_sum / r.2.sums.total_game_count
            avg_acpl := r.2.sums.total_acpl_sum / r.2.sums.total_game_count })

/-- `player_stats` after the `how='left'` merge of `avg_opponent_elo`
(line 167): the right payload is attached as an `Option` (no `fillna`). -/
structure PlayerStatsOpp extends PlayerStatsAvg where
  avg_opponent_elo : Option ℚ
  deriving DecidableEq

/-- `player_stats` after `calculate_tpr` (lines 89–93, applied at 170). -/
structure PlayerStatsTpr extends PlayerStatsOpp where
  w_star : ℚ
  TPR : Option ℚ
  deriving DecidableEq

/-- `calculate_tpr` (lines 89–93): `w_star = optimize_w(Points,
total_game_count, 0.75)` and `TPR = round(calculate_EPR(w_star,
avg_opponent_elo), 0)`.  The two numeric functions live in the external
`epr_calculator` module and are taken as parameters; a NaN `avg_opponent_elo`
propagates to a NaN `TPR`. -/
def calculate_tpr (optimize_w : ℚ → ℚ → ℚ → ℚ) (calculate_EPR : ℚ → ℚ → ℚ)
    (t : List (String × PlayerStatsOpp)) : List (String × PlayerStatsTpr) :=
  t.map fun r =>
    let w := optimize_w r.2.sums.Points r.2.sums.total_game_count (3 / 4)
    (r.1, { toPlayerStatsOpp := r.2
            w_star := w
            TPR := r.2.avg_opponent_elo.map fun a => (pythonRound (calculate_EPR w a) : ℚ) })

/-- `player_stats` after the `how='left'` merge of `average_elo` (line 176). -/
structure PlayerStatsFull extends PlayerStatsTpr where
  Elo : Option ℚ
  deriving DecidableEq

/-- The `player_stats` frame of `main_stats` after line 176, with every computed
column: lines 157–176 in source order. -/
def player_stats_full (df : List Game) (optimize_w : ℚ → ℚ → ℚ → ℚ)
    (calculate_EPR : ℚ → ℚ → ℚ) : List (String × PlayerStatsFull) :=
  let ps := calculate_averages (player_stats_base df)
  let avg_opponent_elo := calculate_avg_opponent_elo (calculate_opponent_elo_sums df)
    (total_games df)
  let ps2 : List (String × PlayerStatsOpp) :=
    ps.map fun r => (r.1, { toPlayerStatsAvg := r.2
                            avg_opponent_elo := lookup avg_opponent_elo r.1 })
  let ps3 := calculate_tpr optimize_w calculate_EPR ps2
  let average_elo := calculate_average_elo df
  ps3.map fun r => (r.1, { toPlayerStatsTpr := r.2, Elo := lookup average_elo r.1 })

/-! ## Output projection and sort (lines 178–191) -/

/-- One row of the written `player_stats.csv`: the `columns_to_include`
projection of line 179, fields in the source's column order. -/
structure OutputRow where
  Player : String
  avg_gi : ℚ
  avg_gpl : ℚ
  avg_acpl : ℚ
  total_game_count : ℚ
  Points : ℚ
  Elo : Option ℚ
  TPR : Option ℚ
  total_moves : ℚ
  White_games : ℚ
  Black_games : ℚ
  gi_median : ℚ
  gpl_median : ℚ
  acpl_median : ℚ
  gi_std : ℚ
  gpl_std : ℚ
  acpl_std : ℚ
  avg_gi_raw : ℚ
  white_gpl_sum : ℚ
  black_gpl_sum : ℚ
  white_acpl_sum : ℚ
  black_acpl_sum : ℚ
  white_result_sum : ℚ
  black_result_sum : ℚ
  total_gpl_sum : ℚ
  gi_var : ℚ
  gi_raw_median : ℚ
  gi_raw_var : ℚ
  gi_raw_std : ℚ
  gpl_var : ℚ
  acpl_var : ℚ
  deriving DecidableEq

/-- Lines 179–180: project a `player_stats` row onto `columns_to_include`. -/
def projectRow (p : String) (r : PlayerStatsFull) : OutputRow :=
  { Player := p
    avg_gi := r.avg_gi, avg_gpl := r.avg_gpl, avg_acpl := r.avg_acpl
    total_game_count := r.sums.total_game_count, Points := r.sums.Points
    Elo := r.Elo, TPR := r.TPR
    total_moves := r.sums.total_moves
    White_games := r.sums.White_games, Black_games := r.sums.Black_games
    gi_median := r.gi.median, gpl_median := r.gpl.median, acpl_median := r.acpl.median
    gi_std := r.gi.std, gpl_std := r.gpl.std, acpl_std := r.acpl.std
    avg_gi_raw := r.avg_gi_raw
    white_gpl_sum := r.sums.white_gpl_sum, black_gpl_sum := r.sums.black_gpl_sum
    white_acpl_sum := r.sums.white_acpl_sum, black_acpl_sum := r.sums.black_acpl_sum
    white_result_sum := r.sums.white_result_sum, black_result_sum := r.sums.black_result_sum
    total_gpl_sum := r.sums.total_gpl_sum
    gi_var := r.gi.var
    gi_raw_median := r.gi_raw.median, gi_raw_var := r.gi_raw.var, gi_raw_std := r.gi_raw.std
    gpl_var := r.gpl.var, acpl_var := r.acpl.var }

/-- Row comparison used by the final sort: ascending in `avg_gi`. -/
def giLe (r s : OutputRow) : Prop := r.avg_gi ≤ s.avg_gi

instance : DecidableRel giLe := fun r s => inferInstanceAs (Decidable (r.avg_gi ≤ s.avg_gi))

instance : IsTotal OutputRow giLe := ⟨fun a b => le_total a.avg_gi b.avg_gi⟩

instance : IsTrans OutputRow giLe := ⟨fun _ _ _ hab hbc => le_trans hab hbc⟩

/-- Line 190: `player_stats.sort_values(by='avg_gi', ascending=False)`.
pandas' `nargsort` handles `ascending=False` by reversing the values and row
indices, computing the ascending argsort (numpy's default argsort is a stable
insertion sort on small arrays), and reversing the resulting indexer; the model
mirrors those three steps.  The two reversals cancel on tied rows, so rows with
equal `avg_gi` keep their original relative order. -/
def sort_values_desc (rows : List OutputRow) : List OutputRow :=
  (List.insertionSort giLe rows.reverse).reverse

/-- The output table before the sort: the `player_stats` rows (keyed by the
merge chain) projected onto the output columns, in frame order. -/
def pre_sort_output (df : List Game) (optimize_w : ℚ → ℚ → ℚ → ℚ)
    (calculate_EPR : ℚ → ℚ → ℚ) : List OutputRow :=
  (player_stats_full df optimize_w calculate_EPR).map fun r => projectRow r.1 r.2

/-- The rows of the written `player_stats.csv` (lines 179–191): projected,
then sorted descending by `avg_gi`. -/
def main_stats_output (df : List Game) (optimize_w : ℚ → ℚ → ℚ → ℚ)
    (calculate_EPR : ℚ → ℚ → ℚ) : List OutputRow :=
  sort_values_desc (pre_sort_output df optimize_w calculate_EPR)

/-! ## The run wrapper (lines 112–116, 182–191) -/

/-- `os.path.exists` over the modelled filesystem: an association of paths to
parsed game tables. -/
def os_path_exists (fs : List (String × List Game)) (path : String) : Bool :=
  (fs.find? fun f => f.1 == path).isSome

/-- The observable outcome of one `main_stats` run: the input filesystem (files
the run can read), the single output write if one happened, and the printed
reports. -/
structure RunResult where
  fs : List (String × List Game)
  output : Option (String × List OutputRow)
  messages : List String
  deriving DecidableEq

/-- `main_stats` (lines 112–191) as a run: if the input path does not exist the
run prints `File not found: …` and returns (lines 113–115) — a total early
return, not an exception — touching nothing and producing no output; otherwise
it reads the table and writes the sorted statistics to
`<output_dir>/player_stats.csv`.  The model is a total function: no branch
raises. -/
def main_stats (fs : List (String × List Game))
    (csv_all_games_path player_stats_output_dir : String)
    (optimize_w : ℚ → ℚ → ℚ → ℚ) (calculate_EPR : ℚ → ℚ → ℚ) : RunResult :=
  match lookup fs csv_all_games_path with
  | none => ⟨fs, none, ["File not found: " ++ csv_all_games_path]⟩
  | some df =>
    ⟨fs, some (player_stats_output_dir ++ "/player_stats.csv",
               main_stats_output df optimize_w calculate_EPR), []⟩

/-! ## Specification-side per-player quantities

Direct restatements of the aggregated quantities, used to phrase the claims
independently of the groupby/merge plumbing. -/

/-- Every value of the `White` column followed by every value of the `Black`
column: the multiset of player appearances in the input. -/
def inputPlayers (df : List Game) : List String :=
  df.map (fun g => g.White) ++ df.map fun g => g.Black

/-- The games in which `p` holds the White pieces. -/
def gamesAsWhite (df : List Game) (p : String) : List Game :=
  df.filter fun g => g.White == p

/-- The games in which `p` holds the Black pieces. -/
def gamesAsBlack (df : List Game) (p : String) : List Game :=
  df.filter fun g => g.Black == p

/-- Sum of a column over `p`'s White games (0 when `p` never played White). -/
def sumWhite (df : List Game) (p : String) (col : Game → ℚ) : ℚ :=
  ((gamesAsWhite df p).map col).sum

/-- Sum of a column over `p`'s Black games (0 when `p` never played Black). -/
def sumBlack (df : List Game) (p : String) (col : Game → ℚ) : ℚ :=
  ((gamesAsBlack df p).map col).sum

/-- Number of input rows with `p` in the `White` column. -/
def countWhite (df : List Game) (p : String) : ℚ :=
  ((gamesAsWhite df p).length : ℚ)

/-- Number of input rows with `p` in the `Black` column. -/
def countBlack (df : List Game) (p : String) : ℚ :=
  ((gamesAsBlack df p).length : ℚ)

/-- `p`'s pooled per-game observations of one metric: the White-side values
followed by the Black-side values. -/
def pooled (df : List Game) (p : String) (white_col black_col : Game → ℚ) : List ℚ :=
  (gamesAsWhite df p).map white_col ++ (gamesAsBlack df p).map black_col

/-- `p`'s average Elo over their White games (0 when `p` never played White,
matching the zero fill of the merge in `calculate_average_elo`). -/
def avgEloWhite (df : List Game) (p : String) : ℚ :=
  meanQ ((gamesAsWhite df p).map fun g => g.WhiteElo)

/-- `p`'s average Elo over their Black games (0 when `p` never played Black). -/
def avgEloBlack (df : List Game) (p : String) : ℚ :=
  meanQ ((gamesAsBlack df p).map fun g => g.BlackElo)

/-- Sum of the opposing side's Elo over all of `p`'s games: `BlackElo` of `p`'s
White games plus `WhiteElo` of `p`'s Black games. -/
def oppEloSum (df : List Game) (p : String) : ℚ :=
  sumWhite df p (fun g => g.BlackElo) + sumBlack df p fun g => g.WhiteElo

/-! ## Table lemmas: keys and lookups of the canonical keyed tables -/

theorem mem_sortedKeys {a : String} {l : List String} : a ∈ sortedKeys l ↔ a ∈ l := by
  unfold sortedKeys
  rw [List.mem_dedup, List.mem_insertionSort]

theorem nodup_sortedKeys (l : List String) : (sortedKeys l).Nodup :=
  List.nodup_dedup _

theorem keys_keyed (ks : List String) (F : String → α) :
    keys (ks.map fun p => (p, F p)) = ks := by
  simp [keys, List.map_map, Function.comp_def]

theorem lookup_keyed (ks : List String) (F : String → α) (q : String) :
    lookup (ks.map fun p => (p, F p)) q = if q ∈ ks then some (F q) else none := by
  induction ks with
  | nil => simp [lookup]
  | cons a ks ih =>
    by_cases h : a = q
    · subst h
      simp [lookup, List.find?_cons]
    · simp only [List.map_cons, lookup, List.find?_cons] at *
      have hba : ((a, F a).1 == q) = false := by simpa using h
      rw [hba]
      have hqa : ¬ q = a := fun he => h he.symm
      simpa [List.mem_cons, hqa] using ih

theorem getD_ite {c : Prop} [Decidable c] (a d : α) :
    (if c then some a else none).getD d = if c then a else d := by
  split <;> rfl

theorem keys_nodup_keyed (ks : List String) (F : String → α) (h : ks.Nodup) :
    (keys (ks.map fun p => (p, F p))).Nodup := by
  rw [keys_keyed]; exact h

/-- In a table with distinct keys, every row is what `lookup` finds at its key. -/
theorem lookup_of_mem_of_nodup {t : List (String × α)} (h : (keys t).Nodup)
    {r : String × α} (hr : r ∈ t) : lookup t r.1 = some r.2 := by
  induction t with
  | nil => cases hr
  | cons a t ih =>
    rcases List.mem_cons.mp hr with rfl | hr
    · simp [lookup, List.find?_cons]
    · simp only [keys, List.map_cons, List.nodup_cons] at h
      have hne : a.1 ≠ r.1 := by
        intro he
        have : r.1 ∈ keys t := List.mem_map_of_mem Prod.fst hr
        exact h.1 (he ▸ this)
      have hba : (a.1 == r.1) = false := by simpa using hne
      simp only [lookup, List.find?_cons, hba]
      exact ih h.2 hr

theorem keys_mergeOuter (t1 : List (String × α)) (t2 : List (String × β)) (d1 : α) (d2 : β) :
    keys (mergeOuter t1 t2 d1 d2) = sortedKeys (keys t1 ++ keys t2) :=
  keys_keyed _ _

theorem mem_keys_mergeOuter {t1 : List (String × α)} {t2 : List (String × β)} {d1 : α}
    {d2 : β} {q : String} :
    q ∈ keys (mergeOuter t1 t2 d1 d2) ↔ q ∈ keys t1 ∨ q ∈ keys t2 := by
  rw [keys_mergeOuter, mem_sortedKeys, List.mem_append]

theorem lookup_mergeOuter {t1 : List (String × α)} {t2 : List (String × β)} {d1 : α} {d2 : β}
    {q : String} (h : q ∈ keys t1 ∨ q ∈ keys t2) :
    lookup (mergeOuter t1 t2 d1 d2) q =
      some ((lookup t1 q).getD d1, (lookup t2 q).getD d2) := by
  unfold mergeOuter
  rw [lookup_keyed, if_pos (mem_sortedKeys.mpr (List.mem_append.mpr h))]

theorem lookup_map_payload (t : List (String × α)) (f : String × α → β) (q : String) :
    lookup (t.map fun r => (r.1, f r)) q = (lookup t q).map fun v => f (q, v) := by
  induction t with
  | nil => simp [lookup]
  | cons a t ih =>
    obtain ⟨a1, a2⟩ := a
    by_cases h : a1 = q
    · subst h
      simp [lookup, List.find?_cons]
    · have hba : (a1 == q) = false := by simpa using h
      simp only [List.map_cons, lookup, List.find?_cons, hba] at *
      exact ih

theorem keys_map_payload (t : List (String × α)) (f : String × α → β) :
    keys (t.map fun r => (r.1, f r)) = keys t := by
  simp [keys, List.map_map, Function.comp_def]

theorem lookup_eq_none_iff {t : List (String × α)} {q : String} :
    lookup t q = none ↔ q ∉ keys t := by
  simp only [lookup, Option.map_eq_none', List.find?_eq_none, beq_iff_eq, keys, List.mem_map]
  constructor
  · rintro h ⟨x, hx, rfl⟩
    exact h x hx rfl
  · intro h x hx he
    exact h ⟨x, hx, he⟩

theorem mem_inputPlayers {df : List Game} {q : String} :
    q ∈ inputPlayers df ↔ (q ∈ df.map fun g => g.White) ∨ q ∈ df.map fun g => g.Black :=
  List.mem_append

/-! ## Lookups of the grouped base tables -/

theorem mem_keys_calculate_sum {df : List Game} {key : Game → String} {val : Game → ℚ}
    {q : String} : q ∈ keys (calculate_sum df key val) ↔ q ∈ df.map key := by
  unfold calculate_sum
  rw [keys_keyed, mem_sortedKeys]

theorem mem_keys_calculate_games {df : List Game} {key : Game → String} {q : String} :
    q ∈ keys (calculate_games df key) ↔ q ∈ df.map key := by
  unfold calculate_games
  rw [keys_keyed, mem_sortedKeys]

theorem filter_eq_nil_of_not_mem {df : List Game} {key : Game → String} {q : String}
    (h : q ∉ df.map key) : df.filter (fun g => key g == q) = [] := by
  rw [List.filter_eq_nil_iff]
  intro g hg
  simp only [beq_iff_eq]
  intro he
  exact h (he ▸ List.mem_map_of_mem key hg)

theorem lookup_calculate_sum (df : List Game) (key : Game → String) (val : Game → ℚ)
    (q : String) :
    (lookup (calculate_sum df key val) q).getD 0 =
      ((df.filter fun g => key g == q).map val).sum := by
  unfold calculate_sum
  rw [lookup_keyed, getD_ite]
  split
  · rfl
  · next h =>
    rw [mem_sortedKeys] at h
    rw [filter_eq_nil_of_not_mem h]
    rfl

theorem lookup_calculate_games (df : List Game) (key : Game → String) (q : String) :
    (lookup (calculate_games df key) q).getD 0 =
      ((df.filter fun g => key g == q).length : ℚ) := by
  unfold calculate_games
  rw [lookup_keyed, getD_ite]
  split
  · rfl
  · next h =>
    rw [mem_sortedKeys] at h
    rw [filter_eq_nil_of_not_mem h]
    rfl

theorem lookup_total_games {df : List Game} {q : String} (h : q ∈ inputPlayers df) :
    lookup (total_games df) q =
      some ⟨countWhite df q, countBlack df q, countWhite df q + countBlack df q⟩ := by
  unfold total_games calculate_total_games
  rw [lookup_map_payload]
  have hm : q ∈ keys (white_games df) ∨ q ∈ keys (black_games df) := by
    unfold white_games black_games
    rcases mem_inputPlayers.mp h with h | h
    · exact Or.inl (mem_keys_calculate_games.mpr h)
    · exact Or.inr (mem_keys_calculate_games.mpr h)
  rw [lookup_mergeOuter hm, Option.map_some']
  unfold white_games black_games
  rw [lookup_calculate_games, lookup_calculate_games]
  rfl

theorem mem_keys_total_games {df : List Game} {q : String} :
    q ∈ keys (total_games df) ↔ q ∈ inputPlayers df := by
  unfold total_games calculate_total_games
  rw [keys_map_payload, mem_keys_mergeOuter]
  unfold white_games black_games
  rw [mem_keys_calculate_games, mem_keys_calculate_games, mem_inputPlayers]

/-- Lookup through the merge-two-sum-tables-and-add pattern (used by
`calculate_total_moves` and `calculate_opponent_elo_sums`). -/
theorem lookup_merge_add_of_mem (df : List Game) (key1 key2 : Game → String)
    (val1 val2 : Game → ℚ) {q : String} (h : q ∈ df.map key1 ∨ q ∈ df.map key2) :
    lookup ((mergeOuter (calculate_sum df key1 val1) (calculate_sum df key2 val2) 0 0).map
        fun r => (r.1, r.2.1 + r.2.2)) q =
      some (((df.filter fun g => key1 g == q).map val1).sum +
        ((df.filter fun g => key2 g == q).map val2).sum) := by
  rw [lookup_map_payload]
  have hm : q ∈ keys (calculate_sum df key1 val1) ∨ q ∈ keys (calculate_sum df key2 val2) := by
    rcases h with h | h
    · exact Or.inl (mem_keys_calculate_sum.mpr h)
    · exact Or.inr (mem_keys_calculate_sum.mpr h)
  rw [lookup_mergeOuter hm, Option.map_some']
  rw [lookup_calculate_sum, lookup_calculate_sum]

theorem lookup_merge_add_getD (df : List Game) (key1 key2 : Game → String)
    (val1 val2 : Game → ℚ) (q : String) :
    (lookup ((mergeOuter (calculate_sum df key1 val1) (calculate_sum df key2 val2) 0 0).map
        fun r => (r.1, r.2.1 + r.2.2)) q).getD 0 =
      ((df.filter fun g => key1 g == q).map val1).sum +
        ((df.filter fun g => key2 g == q).map val2).sum := by
  by_cases h : q ∈ df.map key1 ∨ q ∈ df.map key2
  · rw [lookup_merge_add_of_mem df key1 key2 val1 val2 h, Option.getD_some]
  · push_neg at h
    have hn : lookup ((mergeOuter (calculate_sum df key1 val1)
        (calculate_sum df key2 val2) 0 0).map fun r => (r.1, r.2.1 + r.2.2)) q = none := by
      rw [lookup_eq_none_iff, keys_map_payload]
      intro hmem
      rcases mem_keys_mergeOuter.mp hmem with hm | hm
      · exact absurd (mem_keys_calculate_sum.mp hm) h.1
      · exact absurd (mem_keys_calculate_sum.mp hm) h.2
    rw [hn, filter_eq_nil_of_not_mem h.1, filter_eq_nil_of_not_mem h.2]
    simp

theorem lookup_total_moves (df : List Game) (q : String) :
    (lookup (calculate_total_moves df) q).getD 0 =
      sumWhite df q (fun g => g.white_move_number) +
        sumBlack df q fun g => g.black_move_number := by
  unfold calculate_total_moves white_moves black_moves
  exact lookup_merge_add_getD df _ _ _ _ q

theorem mem_keys_total_moves {df : List Game} {q : String} :
    q ∈ keys (calculate_total_moves df) ↔ q ∈ inputPlayers df := by
  unfold calculate_total_moves white_moves black_moves
  rw [keys_map_payload, mem_keys_mergeOuter, mem_keys_calculate_sum,
    mem_keys_calculate_sum, mem_inputPlayers]

theorem lookup_mergeOuter_eq (t1 : List (String × α)) (t2 : List (String × β)) (d1 : α)
    (d2 : β) (q : String) :
    lookup (mergeOuter t1 t2 d1 d2) q =
      if q ∈ keys t1 ∨ q ∈ keys t2 then
        some ((lookup t1 q).getD d1, (lookup t2 q).getD d2)
      else none := by
  unfold mergeOuter
  rw [lookup_keyed]
  simp only [mem_sortedKeys, List.mem_append]

/-! ## The `total_sums` row of one player -/

/-- The `total_sums` row of player `p`, written per player: each per-color cell
is the player's sum (or count) in that color, zero when the player never held
that color, and each total is the sum of its two per-color cells. -/
def sumsRowAt (df : List Game) (p : String) : TotalSumsRow where
  white_gi_sum := sumWhite df p fun g => g.white_gi
  black_gi_sum := sumBlack df p fun g => g.black_gi
  white_gi_raw_sum := sumWhite df p fun g => g.white_gi_raw
  black_gi_raw_sum := sumBlack df p fun g => g.black_gi_raw
  white_gpl_sum := sumWhite df p fun g => g.white_gpl
  black_gpl_sum := sumBlack df p fun g => g.black_gpl
  white_acpl_sum := sumWhite df p fun g => g.white_acpl
  black_acpl_sum := sumBlack df p fun g => g.black_acpl
  white_result_sum := sumWhite df p fun g => g.WhiteResult
  black_result_sum := sumBlack df p fun g => g.BlackResult
  White_games := countWhite df p
  Black_games := countBlack df p
  total_game_count := countWhite df p + countBlack df p
  total_moves := sumWhite df p (fun g => g.white_move_number) +
    sumBlack df p fun g => g.black_move_number
  total_gi_sum := sumWhite df p (fun g => g.white_gi) + sumBlack df p fun g => g.black_gi
  total_gi_raw_sum := sumWhite df p (fun g => g.white_gi_raw) +
    sumBlack df p fun g => g.black_gi_raw
  total_gpl_sum := sumWhite df p (fun g => g.white_gpl) + sumBlack df p fun g => g.black_gpl
  total_acpl_sum := sumWhite df p (fun g => g.white_acpl) +
    sumBlack df p fun g => g.black_acpl
  Points := sumWhite df p (fun g => g.WhiteResult) + sumBlack df p fun g => g.BlackResult

theorem lookup_total_sums {df : List Game} {q : String} (h : q ∈ inputPlayers df) :
    lookup (total_sums df) q = some (sumsRowAt df q) := by
  unfold total_sums
  rw [lookup_map_payload]
  simp only [lookup_mergeOuter_eq, mem_keys_mergeOuter, getD_ite, white_gi_sum, black_gi_sum,
    white_gi_raw_sum, black_gi_raw_sum, white_gpl_sum, black_gpl_sum, white_acpl_sum,
    black_acpl_sum, white_result_sum, black_result_sum, mem_keys_calculate_sum,
    mem_keys_total_games, mem_keys_total_moves, lookup_total_games h, lookup_total_moves,
    lookup_calculate_sum, Option.getD_some]
  rcases mem_inputPlayers.mp h with hw | hb
  · simp only [hw, true_or, or_true, if_true, h, Option.map_some']
    simp [mkTotalSumsRow, sumsRowAt, sumWhite, sumBlack, gamesAsWhite, gamesAsBlack,
      countWhite, countBlack]
  · simp only [hb, true_or, or_true, if_true, h, Option.map_some']
    simp [mkTotalSumsRow, sumsRowAt, sumWhite, sumBlack, gamesAsWhite, gamesAsBlack,
      countWhite, countBlack]

/-! ## Lookups of the dispersion-statistics tables -/

theorem map_snd_filter_keyed (df : List Game) (key : Game → String) (val : Game → ℚ)
    (q : String) :
    ((df.map fun g => (key g, val g)).filter fun r => r.1 == q).map Prod.snd =
      (df.filter fun g => key g == q).map val := by
  induction df with
  | nil => rfl
  | cons g df ih =>
    simp only [List.map_cons, List.filter_cons]
    cases hkg : (key g == q) <;> simp [hkg, ih]

theorem mem_keys_calculate_statistics {df : List Game} {wcol bcol : Game → ℚ} {q : String} :
    q ∈ keys (calculate_statistics (combined_metric df wcol bcol)) ↔ q ∈ inputPlayers df := by
  unfold calculate_statistics
  rw [keys_keyed, mem_sortedKeys]
  simp [combined_metric, inputPlayers, List.map_append, List.map_map, Function.comp_def]

/-- The dispersion-statistics row of one player: median, variance and standard
deviation of the player's pooled observations of one metric. -/
def statsRowAt (df : List Game) (p : String) (wcol bcol : Game → ℚ) : StatsRow :=
  ⟨medianQ (pooled df p wcol bcol), varQ (pooled df p wcol bcol),
    varQ (pooled df p wcol bcol)⟩

theorem lookup_calculate_statistics (df : List Game) (wcol bcol : Game → ℚ) {q : String}
    (h : q ∈ inputPlayers df) :
    lookup (calculate_statistics (combined_metric df wcol bcol)) q =
      some (statsRowAt df q wcol bcol) := by
  have hs : ((combined_metric df wcol bcol).filter fun r => r.1 == q).map Prod.snd =
      pooled df q wcol bcol := by
    unfold combined_metric pooled gamesAsWhite gamesAsBlack
    rw [List.filter_append, List.map_append, map_snd_filter_keyed, map_snd_filter_keyed]
  have hm : q ∈ (combined_metric df wcol bcol).map Prod.fst := by
    simpa [combined_metric, inputPlayers, List.map_append, List.map_map,
      Function.comp_def] using h
  unfold calculate_statistics
  rw [lookup_keyed, if_pos (mem_sortedKeys.mpr hm)]
  simp only [hs]
  rfl

/-! ## Opponent-Elo lookups -/

theorem lookup_opp_sums {df : List Game} {q : String} (h : q ∈ inputPlayers df) :
    lookup (calculate_opponent_elo_sums df) q = some (oppEloSum df q) := by
  unfold calculate_opponent_elo_sums white_opponent_elo_sum black_opponent_elo_sum
  rw [lookup_merge_add_of_mem df _ _ _ _ (mem_inputPlayers.mp h)]
  rfl

theorem lookup_avg_opp {t : List (String × ℚ)} {tg : List (String × TotalGamesRow)}
    {q : String} {s : ℚ} {tgr : TotalGamesRow} (ht : lookup t q = some s)
    (htg : lookup tg q = some tgr) :
    lookup (calculate_avg_opponent_elo t tg) q = some (s / tgr.total_game_count) := by
  unfold calculate_avg_opponent_elo
  revert ht
  induction t with
  | nil => intro ht; simp [lookup] at ht
  | cons a t ih =>
    intro ht
    obtain ⟨a1, a2⟩ := a
    by_cases h : a1 = q
    · subst h
      have hs : a2 = s := by simpa [lookup, List.find?_cons] using ht
      subst hs
      simp only [List.filterMap_cons]
      rw [htg]
      simp [lookup, List.find?_cons]
    · have hba : (a1 == q) = false := by simpa using h
      have ht' : lookup t q = some s := by
        simpa [lookup, List.find?_cons, hba] using ht
      cases hg : lookup tg a1 with
      | none =>
        simp only [List.filterMap_cons, hg, Option.map_none']
        exact ih ht'
      | some g =>
        simp only [List.filterMap_cons, hg, Option.map_some']
        simp only [lookup, List.find?_cons, hba]
        exact ih ht'

theorem lookup_avg_opponent_elo {df : List Game} {q : String} (h : q ∈ inputPlayers df) :
    lookup (calculate_avg_opponent_elo (calculate_opponent_elo_sums df) (total_games df)) q =
      some (oppEloSum df q / (countWhite df q + countBlack df q)) := by
  rw [lookup_avg_opp (lookup_opp_sums h) (lookup_total_games h)]

/-! ## Average-Elo lookups -/

theorem lookup_white_elo_avg (df : List Game) (q : String) :
    (lookup (white_elo_avg df) q).getD 0 = avgEloWhite df q := by
  unfold white_elo_avg
  rw [lookup_keyed, getD_ite]
  split
  · rfl
  · next h =>
    rw [mem_sortedKeys] at h
    unfold avgEloWhite gamesAsWhite
    rw [filter_eq_nil_of_not_mem h]
    simp [meanQ]

theorem lookup_black_elo_avg (df : List Game) (q : String) :
    (lookup (black_elo_avg df) q).getD 0 = avgEloBlack df q := by
  unfold black_elo_avg
  rw [lookup_keyed, getD_ite]
  split
  · rfl
  · next h =>
    rw [mem_sortedKeys] at h
    unfold avgEloBlack gamesAsBlack
    rw [filter_eq_nil_of_not_mem h]
    simp [meanQ]

/-- The `Elo` cell of one player: the source's row-wise rule evaluated at the
player's two per-color average Elos (with the zero fill for a missing color). -/
def eloAt (df : List Game) (p : String) : ℚ :=
  (pythonRound (if 0 < avgEloWhite df p ∧ 0 < avgEloBlack df p
      then (avgEloWhite df p + avgEloBlack df p) / 2
      else max (avgEloWhite df p) (avgEloBlack df p)) : ℚ)

theorem lookup_calculate_average_elo {df : List Game} {q : String} (h : q ∈ inputPlayers df) :
    lookup (calculate_average_elo df) q = some (eloAt df q) := by
  unfold calculate_average_elo
  rw [lookup_map_payload]
  have hm : q ∈ keys (white_elo_avg df) ∨ q ∈ keys (black_elo_avg df) := by
    rcases mem_inputPlayers.mp h with h | h
    · exact Or.inl (by unfold white_elo_avg; rw [keys_keyed, mem_sortedKeys]; exact h)
    · exact Or.inr (by unfold black_elo_avg; rw [keys_keyed, mem_sortedKeys]; exact h)
  rw [lookup_mergeOuter hm, Option.map_some', lookup_white_elo_avg, lookup_black_elo_avg]
  rfl

/-! ## The assembled `player_stats` row of one player -/

theorem lookup_gi_stats {df : List Game} {q : String} (h : q ∈ inputPlayers df) :
    lookup (gi_stats df) q =
      some (statsRowAt df q (fun g => g.white_gi) fun g => g.black_gi) := by
  unfold gi_stats
  exact lookup_calculate_statistics df _ _ h

theorem lookup_gi_raw_stats {df : List Game} {q : String} (h : q ∈ inputPlayers df) :
    lookup (gi_raw_stats df) q =
      some (statsRowAt df q (fun g => g.white_gi_raw) fun g => g.black_gi_raw) := by
  unfold gi_raw_stats
  exact lookup_calculate_statistics df _ _ h

theorem lookup_gpl_stats {df : List Game} {q : String} (h : q ∈ inputPlayers df) :
    lookup (gpl_stats df) q =
      some (statsRowAt df q (fun g => g.white_gpl) fun g => g.black_gpl) := by
  unfold gpl_stats
  exact lookup_calculate_statistics df _ _ h

theorem lookup_acpl_stats {df : List Game} {q : String} (h : q ∈ inputPlayers df) :
    lookup (acpl_stats df) q =
      some (statsRowAt df q (fun g => g.white_acpl) fun g => g.black_acpl) := by
  unfold acpl_stats
  exact lookup_calculate_statistics df _ _ h

theorem mem_keys_gi_stats {df : List Game} {q : String} :
    q ∈ keys (gi_stats df) ↔ q ∈ inputPlayers df := by
  unfold gi_stats; exact mem_keys_calculate_statistics

theorem mem_keys_gi_raw_stats {df : List Game} {q : String} :
    q ∈ keys (gi_raw_stats df) ↔ q ∈ inputPlayers df := by
  unfold gi_raw_stats; exact mem_keys_calculate_statistics

theorem mem_keys_gpl_stats {df : List Game} {q : String} :
    q ∈ keys (gpl_stats df) ↔ q ∈ inputPlayers df := by
  unfold gpl_stats; exact mem_keys_calculate_statistics

theorem mem_keys_acpl_stats {df : List Game} {q : String} :
    q ∈ keys (acpl_stats df) ↔ q ∈ inputPlayers df := by
  unfold acpl_stats; exact mem_keys_calculate_statistics

theorem mem_keys_total_sums {df : List Game} {q : String} :
    q ∈ keys (total_sums df) ↔ q ∈ inputPlayers df := by
  unfold total_sums
  rw [keys_map_payload]
  simp only [mem_keys_mergeOuter, white_gi_sum, black_gi_sum, white_gi_raw_sum,
    black_gi_raw_sum, white_gpl_sum, black_gpl_sum, white_acpl_sum, black_acpl_sum,
    white_result_sum, black_result_sum, mem_keys_calculate_sum, mem_keys_total_games,
    mem_keys_total_moves, mem_inputPlayers]
  tauto

/-- The `player_stats` row of one player after line 157: the totals row and the
zero-filled dispersion statistics of the four metrics. -/
def baseRowAt (df : List Game) (p : String) : PlayerStatsBase :=
  ⟨sumsRowAt df p,
    fillStats (statsRowAt df p (fun g => g.white_gi) fun g => g.black_gi),
    fillStats (statsRowAt df p (fun g => g.white_gi_raw) fun g => g.black_gi_raw),
    fillStats (statsRowAt df p (fun g => g.white_gpl) fun g => g.black_gpl),
    fillStats (statsRowAt df p (fun g => g.white_acpl) fun g => g.black_acpl)⟩

theorem mem_keys_player_stats_base {df : List Game} {q : String} :
    q ∈ keys (player_stats_base df) ↔ q ∈ inputPlayers df := by
  unfold player_stats_base
  rw [keys_map_payload]
  simp only [mem_keys_mergeOuter, mem_keys_total_sums, mem_keys_gi_stats,
    mem_keys_gi_raw_stats, mem_keys_gpl_stats, mem_keys_acpl_stats, or_self]

theorem lookup_player_stats_base {df : List Game} {q : String} (h : q ∈ inputPlayers df) :
    lookup (player_stats_base df) q = some (baseRowAt df q) := by
  unfold player_stats_base
  rw [lookup_map_payload]
  simp only [lookup_mergeOuter_eq, mem_keys_mergeOuter, mem_keys_total_sums, mem_keys_gi_stats,
    mem_keys_gi_raw_stats, mem_keys_gpl_stats, mem_keys_acpl_stats, h, or_self, if_true,
    getD_ite, lookup_total_sums h, lookup_gi_stats h, lookup_gi_raw_stats h,
    lookup_gpl_stats h, lookup_acpl_stats h, Option.getD_some, Option.map_some']
  rfl

/-- The `player_stats` row of one player after `calculate_averages`. -/
def avgRowAt (df : List Game) (p : String) : PlayerStatsAvg :=
  { toPlayerStatsBase := baseRowAt df p
    avg_gi := (sumsRowAt df p).total_gi_sum / (sumsRowAt df p).total_game_count
    avg_gi_raw := (sumsRowAt df p).total_gi_raw_sum / (sumsRowAt df p).total_game_count
    avg_gpl := (sumsRowAt df p).total_gpl_sum / (sumsRowAt df p).total_game_count
    avg_acpl := (sumsRowAt df p).total_acpl_sum / (sumsRowAt df p).total_game_count }

theorem lookup_calculate_averages {t : List (String × PlayerStatsBase)} {q : String}
    {b : PlayerStatsBase} (ht : lookup t q = some b) :
    lookup (calculate_averages t) q =
      some { toPlayerStatsBase := b
             avg_gi := b.sums.total_gi_sum / b.sums.total_game_count
             avg_gi_raw := b.sums.total_gi_raw_sum / b.sums.total_game_count
             avg_gpl := b.sums.total_gpl_sum / b.sums.total_game_count
             avg_acpl := b.sums.total_acpl_sum / b.sums.total_game_count } := by
  unfold calculate_averages
  rw [lookup_map_payload, ht, Option.map_some']

/-- The fully assembled `player_stats` row of one player (after line 176). -/
def rowAt (df : List Game) (ow : ℚ → ℚ → ℚ → ℚ) (ce : ℚ → ℚ → ℚ) (p : String) :
    PlayerStatsFull :=
  { toPlayerStatsAvg := avgRowAt df p
    avg_opponent_elo := some (oppEloSum df p / (countWhite df p + countBlack df p))
    w_star := ow (sumsRowAt df p).Points (sumsRowAt df p).total_game_count (3 / 4)
    TPR := some ((pythonRound (ce
        (ow (sumsRowAt df p).Points (sumsRowAt df p).total_game_count (3 / 4))
        (oppEloSum df p / (countWhite df p + countBlack df p))) : ℚ))
    Elo := some (eloAt df p) }

theorem lookup_player_stats_full {df : List Game} {ow : ℚ → ℚ → ℚ → ℚ} {ce : ℚ → ℚ → ℚ}
    {q : String} (h : q ∈ inputPlayers df) :
    lookup (player_stats_full df ow ce) q = some (rowAt df ow ce q) := by
  unfold player_stats_full calculate_tpr
  rw [lookup_map_payload, lookup_map_payload, lookup_map_payload,
    lookup_calculate_averages (lookup_player_stats_base h)]
  simp only [Option.map_some', lookup_avg_opponent_elo h, lookup_calculate_average_elo h]
  rfl

theorem mem_keys_player_stats_full {df : List Game} {ow : ℚ → ℚ → ℚ → ℚ} {ce : ℚ → ℚ → ℚ}
    {q : String} :
    q ∈ keys (player_stats_full df ow ce) ↔ q ∈ inputPlayers df := by
  unfold player_stats_full calculate_tpr calculate_averages
  rw [keys_map_payload, keys_map_payload, keys_map_payload, keys_map_payload]
  exact mem_keys_player_stats_base

theorem nodup_keys_player_stats_full (df : List Game) (ow : ℚ → ℚ → ℚ → ℚ)
    (ce : ℚ → ℚ → ℚ) : (keys (player_stats_full df ow ce)).Nodup := by
  unfold player_stats_full calculate_tpr calculate_averages
  rw [keys_map_payload, keys_map_payload, keys_map_payload, keys_map_payload]
  unfold player_stats_base
  rw [keys_map_payload, keys_mergeOuter]
  exact nodup_sortedKeys _

/-- Every row of the `player_stats` frame is the assembled row of its player,
and its player appears in the input. -/
theorem row_mem_player_stats_full {df : List Game} {ow : ℚ → ℚ → ℚ → ℚ} {ce : ℚ → ℚ → ℚ}
    {r : String × PlayerStatsFull} (hr : r ∈ player_stats_full df ow ce) :
    r.1 ∈ inputPlayers df ∧ r.2 = rowAt df ow ce r.1 := by
  have h1 : r.1 ∈ keys (player_stats_full df ow ce) := List.mem_map_of_mem Prod.fst hr
  have hp : r.1 ∈ inputPlayers df := mem_keys_player_stats_full.mp h1
  have h2 := lookup_of_mem_of_nodup (nodup_keys_player_stats_full df ow ce) hr
  rw [lookup_player_stats_full hp] at h2
  exact ⟨hp, (Option.some.inj h2).symm⟩

theorem mem_main_stats_output_iff {df : List Game} {ow : ℚ → ℚ → ℚ → ℚ} {ce : ℚ → ℚ → ℚ}
    {o : OutputRow} :
    o ∈ main_stats_output df ow ce ↔ o ∈ pre_sort_output df ow ce := by
  unfold main_stats_output sort_values_desc
  rw [List.mem_reverse, List.mem_insertionSort, List.mem_reverse]

/-- Every row of the written output is the projected assembled row of its
player, and its player appears in the input. -/
theorem row_mem_main_stats_output {df : List Game} {ow : ℚ → ℚ → ℚ → ℚ} {ce : ℚ → ℚ → ℚ}
    {o : OutputRow} (ho : o ∈ main_stats_output df ow ce) :
    o.Player ∈ inputPlayers df ∧ o = projectRow o.Player (rowAt df ow ce o.Player) := by
  have ho' := mem_main_stats_output_iff.mp ho
  unfold pre_sort_output at ho'
  obtain ⟨r, hr, rfl⟩ := List.mem_map.mp ho'
  obtain ⟨hp, he⟩ := row_mem_player_stats_full hr
  have hP : (projectRow r.1 r.2).Player = r.1 := rfl
  constructor
  · rw [hP]; exact hp
  · rw [hP]
    rw [he]

/-! ## Specification-side totals -/

/-- `p`'s total gi: White-side sum plus Black-side sum. -/
def totalGiSum (df : List Game) (p : String) : ℚ :=
  sumWhite df p (fun g => g.white_gi) + sumBlack df p fun g => g.black_gi

/-- `p`'s total raw gi. -/
def totalGiRawSum (df : List Game) (p : String) : ℚ :=
  sumWhite df p (fun g => g.white_gi_raw) + sumBlack df p fun g => g.black_gi_raw

/-- `p`'s total gpl. -/
def totalGplSum (df : List Game) (p : String) : ℚ :=
  sumWhite df p (fun g => g.white_gpl) + sumBlack df p fun g => g.black_gpl

/-- `p`'s total acpl. -/
def totalAcplSum (df : List Game) (p : String) : ℚ :=
  sumWhite df p (fun g => g.white_acpl) + sumBlack df p fun g => g.black_acpl

theorem one_le_total_count {df : List Game} {p : String} (h : p ∈ inputPlayers df) :
    1 ≤ countWhite df p + countBlack df p := by
  have hw0 : 0 ≤ countWhite df p := by
    unfold countWhite; exact Nat.cast_nonneg _
  have hb0 : 0 ≤ countBlack df p := by
    unfold countBlack; exact Nat.cast_nonneg _
  rcases mem_inputPlayers.mp h with h | h
  · obtain ⟨g, hg, he⟩ := List.mem_map.mp h
    have h1 : g ∈ gamesAsWhite df p := by
      unfold gamesAsWhite
      rw [List.mem_filter]
      exact ⟨hg, by simp [he]⟩
    have h2 : 1 ≤ (gamesAsWhite df p).length := List.length_pos.mpr (List.ne_nil_of_mem h1)
    have h3 : (1 : ℚ) ≤ countWhite df p := by
      unfold countWhite
      exact_mod_cast h2
    linarith
  · obtain ⟨g, hg, he⟩ := List.mem_map.mp h
    have h1 : g ∈ gamesAsBlack df p := by
      unfold gamesAsBlack
      rw [List.mem_filter]
      exact ⟨hg, by simp [he]⟩
    have h2 : 1 ≤ (gamesAsBlack df p).length := List.length_pos.mpr (List.ne_nil_of_mem h1)
    have h3 : (1 : ℚ) ≤ countBlack df p := by
      unfold countBlack
      exact_mod_cast h2
    linarith

theorem pooled_length (df : List Game) (p : String) (wcol bcol : Game → ℚ) :
    (pooled df p wcol bcol).length =
      (gamesAsWhite df p).length + (gamesAsBlack df p).length := by
  unfold pooled
  rw [List.length_append, List.length_map, List.length_map]

/-! ## Concrete inputs for witnesses and counterexamples -/

/-- A constant stand-in for the external `optimize_w` solver. -/
def owConst : ℚ → ℚ → ℚ → ℚ := fun _ _ _ => 0

/-- A constant stand-in for the external `calculate_EPR` function. -/
def ceConst : ℚ → ℚ → ℚ := fun _ _ => 0

/-- Game 1 of the spec's concrete scenario: White=A (Elo 1500, result 1, gi 80),
Black=B (Elo 1400, result 0, gi 60). -/
def gScenario1 : Game :=
  ⟨"A", "B", 1500, 1400, 1, 0, 40, 40, 80, 60, 80, 60, 10, 20, 15, 25⟩

/-- Game 2 of the spec's concrete scenario: White=B (Elo 1400, result 0.5,
gi 70), Black=A (Elo 1520, result 0.5, gi 75). -/
def gScenario2 : Game :=
  ⟨"B", "A", 1400, 1520, 1 / 2, 1 / 2, 30, 30, 70, 75, 70, 75, 12, 18, 16, 22⟩

/-- The spec's two-game scenario table. -/
def dfScenario : List Game := [gScenario1, gScenario2]

/-- A one-game table in which both players end up with the same `avg_gi`. -/
def dfTie : List Game :=
  [⟨"A", "B", 1500, 1400, 1, 0, 40, 40, 50, 50, 50, 50, 10, 10, 10, 10⟩]

/-- A one-game table: each player has exactly one pooled observation. -/
def dfSingle : List Game := [gScenario1]

/-- Two games giving player A a positive White average Elo (2) and a negative
Black average Elo (-2): both nonzero, not both positive. -/
def dfElo : List Game :=
  [⟨"A", "B", 2, 5, 1, 0, 1, 1, 1, 1, 1, 1, 1, 1, 1, 1⟩,
   ⟨"B", "A", 5, -2, 0, 1, 1, 1, 1, 1, 1, 1, 1, 1, 1, 1⟩]

/-- The output row of player A in the scenario run. -/
def scenarioRowA : OutputRow := projectRow "A" (rowAt dfScenario owConst ceConst "A")

/-- The `player_stats` row of player A in the scenario run. -/
def scenarioPairA : String × PlayerStatsFull :=
  ("A", rowAt dfScenario owConst ceConst "A")

/-- The output row of player A in the tie run. -/
def tieRowA : OutputRow := projectRow "A" (rowAt dfTie owConst ceConst "A")

/-- The output row of player B in the tie run. -/
def tieRowB : OutputRow := projectRow "B" (rowAt dfTie owConst ceConst "B")

/-- The `player_stats` row of player A in the one-game run. -/
def singlePairA : String × PlayerStatsFull :=
  ("A", rowAt dfSingle owConst ceConst "A")

/-- A one-file filesystem for the missing-input-file run. -/
def fsW : List (String × List Game) := [("games.csv", dfScenario)]

/-! ## The claims -/

/-- C1: Union completeness — for every input table, the set of `Player` values
of the final output equals the union of the values of the `White` and `Black`
columns: no player appearing in either role is dropped, and no player absent
from both roles appears. -/
theorem union_completeness (df : List Game) (ow : ℚ → ℚ → ℚ → ℚ) (ce : ℚ → ℚ → ℚ)
    (p : String) :
    (p ∈ (main_stats_output df ow ce).map fun r => r.Player) ↔
      (p ∈ df.map fun g => g.White) ∨ (p ∈ df.map fun g => g.Black) := by
  constructor
  · intro hp
    obtain ⟨o, ho, rfl⟩ := List.mem_map.mp hp
    exact mem_inputPlayers.mp (row_mem_main_stats_output ho).1
  · intro hp
    have hp' : p ∈ inputPlayers df := mem_inputPlayers.mpr hp
    have hk : p ∈ keys (player_stats_full df ow ce) := mem_keys_player_stats_full.mpr hp'
    obtain ⟨r, hr, he⟩ := List.mem_map.mp hk
    refine List.mem_map.mpr ⟨projectRow r.1 r.2, ?_, he⟩
    exact mem_main_stats_output_iff.mpr (List.mem_map.mpr ⟨r, hr, rfl⟩)

/-- C5: Average identity — every output row's per-game averages equal the
player's total metric sum divided by `total_game_count`, for the four quality
metrics. -/
theorem average_identity (df : List Game) (ow : ℚ → ℚ → ℚ → ℚ) (ce : ℚ → ℚ → ℚ)
    (r : OutputRow) (hr : r ∈ main_stats_output df ow ce)
    (_hpos : 0 < r.total_game_count) :
    r.avg_gi = totalGiSum df r.Player / r.total_game_count ∧
      r.avg_gi_raw = totalGiRawSum df r.Player / r.total_game_count ∧
      r.avg_gpl = totalGplSum df r.Player / r.total_game_count ∧
      r.avg_acpl = totalAcplSum df r.Player / r.total_game_count := by
  obtain ⟨hp, he⟩ := row_mem_main_stats_output hr
  rw [he]
  exact ⟨rfl, rfl, rfl, rfl⟩

/-- C5 witness: the identity evaluated on the spec's two-game scenario. -/
theorem average_identity_witness :
    (scenarioRowA ∈ main_stats_output dfScenario owConst ceConst ∧
        0 < scenarioRowA.total_game_count) ∧
      (scenarioRowA.avg_gi = totalGiSum dfScenario scenarioRowA.Player /
          scenarioRowA.total_game_count ∧
        scenarioRowA.avg_gi_raw = totalGiRawSum dfScenario scenarioRowA.Player /
          scenarioRowA.total_game_count ∧
        scenarioRowA.avg_gpl = totalGplSum dfScenario scenarioRowA.Player /
          scenarioRowA.total_game_count ∧
        scenarioRowA.avg_acpl = totalAcplSum dfScenario scenarioRowA.Player /
          scenarioRowA.total_game_count) :=
  ⟨⟨by decide, by decide⟩,
    average_identity dfScenario owConst ceConst scenarioRowA (by decide) (by decide)⟩

/-- C6: Sum identity — in every `player_stats` row the per-color sums are the
player's sums in that role (zero when the role never occurs) and each total is
the sum of its two per-color cells, for the four quality metrics. -/
theorem sum_identity (df : List Game) (ow : ℚ → ℚ → ℚ → ℚ) (ce : ℚ → ℚ → ℚ)
    (r : String × PlayerStatsFull) (hr : r ∈ player_stats_full df ow ce) :
    (r.2.sums.white_gi_sum = sumWhite df r.1 (fun g => g.white_gi) ∧
      r.2.sums.black_gi_sum = sumBlack df r.1 (fun g => g.black_gi) ∧
      r.2.sums.total_gi_sum = r.2.sums.white_gi_sum + r.2.sums.black_gi_sum) ∧
    (r.2.sums.white_gi_raw_sum = sumWhite df r.1 (fun g => g.white_gi_raw) ∧
      r.2.sums.black_gi_raw_sum = sumBlack df r.1 (fun g => g.black_gi_raw) ∧
      r.2.sums.total_gi_raw_sum = r.2.sums.white_gi_raw_sum + r.2.sums.black_gi_raw_sum) ∧
    (r.2.sums.white_gpl_sum = sumWhite df r.1 (fun g => g.white_gpl) ∧
      r.2.sums.black_gpl_sum = sumBlack df r.1 (fun g => g.black_gpl) ∧
      r.2.sums.total_gpl_sum = r.2.sums.white_gpl_sum + r.2.sums.black_gpl_sum) ∧
    (r.2.sums.white_acpl_sum = sumWhite df r.1 (fun g => g.white_acpl) ∧
      r.2.sums.black_acpl_sum = sumBlack df r.1 (fun g => g.black_acpl) ∧
      r.2.sums.total_acpl_sum = r.2.sums.white_acpl_sum + r.2.sums.black_acpl_sum) := by
  obtain ⟨hp, he⟩ := row_mem_player_stats_full hr
  rw [he]
  exact ⟨⟨rfl, rfl, rfl⟩, ⟨rfl, rfl, rfl⟩, ⟨rfl, rfl, rfl⟩, ⟨rfl, rfl, rfl⟩⟩

/-- C6 witness: the sum identity evaluated on the spec's two-game scenario. -/
theorem sum_identity_witness :
    scenarioPairA ∈ player_stats_full dfScenario owConst ceConst ∧
      scenarioPairA.2.sums.total_gi_sum =
        scenarioPairA.2.sums.white_gi_sum + scenarioPairA.2.sums.black_gi_sum :=
  ⟨by decide,
    (sum_identity dfScenario owConst ceConst scenarioPairA (by decide)).1.2.2⟩

/-- C7: Game count identity — every output row's `White_games` and
`Black_games` are the number of input rows with the player in that column, and
`total_game_count` is their sum. -/
theorem game_count_identity (df : List Game) (ow : ℚ → ℚ → ℚ → ℚ) (ce : ℚ → ℚ → ℚ)
    (r : OutputRow) (hr : r ∈ main_stats_output df ow ce) :
    r.White_games = countWhite df r.Player ∧ r.Black_games = countBlack df r.Player ∧
      r.total_game_count = countWhite df r.Player + countBlack df r.Player := by
  obtain ⟨hp, he⟩ := row_mem_main_stats_output hr
  rw [he]
  exact ⟨rfl, rfl, rfl⟩

/-- C7 witness: the game-count identity evaluated on the two-game scenario. -/
theorem game_count_identity_witness :
    scenarioRowA ∈ main_stats_output dfScenario owConst ceConst ∧
      scenarioRowA.total_game_count =
        countWhite dfScenario scenarioRowA.Player + countBlack dfScenario scenarioRowA.Player :=
  ⟨by decide,
    (game_count_identity dfScenario owConst ceConst scenarioRowA (by decide)).2.2⟩

/-- C8: Average opponent rating — every `player_stats` row's
`avg_opponent_elo` is the sum of the opposing side's Elo over the player's
games (White games contribute `BlackElo`, Black games `WhiteElo`) divided by
the player's total game count. -/
theorem average_opponent_rating (df : List Game) (ow : ℚ → ℚ → ℚ → ℚ) (ce : ℚ → ℚ → ℚ)
    (r : String × PlayerStatsFull) (hr : r ∈ player_stats_full df ow ce) :
    r.2.avg_opponent_elo = some (oppEloSum df r.1 / r.2.sums.total_game_count) ∧
      r.2.sums.total_game_count = countWhite df r.1 + countBlack df r.1 := by
  obtain ⟨hp, he⟩ := row_mem_player_stats_full hr
  rw [he]
  exact ⟨rfl, rfl⟩

/-- C8 witness: the opponent-rating identity evaluated on the scenario. -/
theorem average_opponent_rating_witness :
    scenarioPairA ∈ player_stats_full dfScenario owConst ceConst ∧
      scenarioPairA.2.avg_opponent_elo =
        some (oppEloSum dfScenario "A" / scenarioPairA.2.sums.total_game_count) :=
  ⟨by decide,
    (average_opponent_rating dfScenario owConst ceConst scenarioPairA (by decide)).1⟩

/-- C10: every output row's `total_game_count` is at least 1 (each output
player appears in at least one input game), so the denominator of every
per-game average is nonzero. -/
theorem total_game_count_ge_one (df : List Game) (ow : ℚ → ℚ → ℚ → ℚ) (ce : ℚ → ℚ → ℚ)
    (r : OutputRow) (hr : r ∈ main_stats_output df ow ce) :
    1 ≤ r.total_game_count := by
  obtain ⟨hp, he⟩ := row_mem_main_stats_output hr
  rw [he]
  exact one_le_total_count hp

/-- C10 witness: the bound evaluated on the two-game scenario. -/
theorem total_game_count_ge_one_witness :
    scenarioRowA ∈ main_stats_output dfScenario owConst ceConst ∧
      1 ≤ scenarioRowA.total_game_count :=
  ⟨by decide,
    total_game_count_ge_one dfScenario owConst ceConst scenarioRowA (by decide)⟩

/-- C2 counterexample: with White average Elo 2 and Black average Elo -2 (both
nonzero), player A's output `Elo` is 2 — the maximum of the two averages — and
not the rounded arithmetic mean 0 that the claim prescribes for two nonzero
averages: the source branches on `> 0`, not on nonzero. -/
theorem single_color_elo_cex :
    (avgEloWhite dfElo "A" ≠ 0 ∧ avgEloBlack dfElo "A" ≠ 0) ∧
      ((main_stats_output dfElo owConst ceConst).find? (fun r => r.Player == "A")).map
          (fun r => r.Elo) = some (some 2) ∧
      (pythonRound ((avgEloWhite dfElo "A" + avgEloBlack dfElo "A") / 2) : ℚ) = 0 := by
  decide

/-- C2 as amended: every output row's `Elo` follows the source's rule — the
rounded mean of the two per-color average Elos when both are positive, and
otherwise the rounded maximum of the two (which is the populated average for a
player who only ever played one color, since the missing color is zero-filled
and real averages are positive). -/
theorem single_color_elo (df : List Game) (ow : ℚ → ℚ → ℚ → ℚ) (ce : ℚ → ℚ → ℚ)
    (r : OutputRow) (hr : r ∈ main_stats_output df ow ce) :
    (0 < avgEloWhite df r.Player → 0 < avgEloBlack df r.Player →
      r.Elo = some ((pythonRound ((avgEloWhite df r.Player + avgEloBlack df r.Player) / 2) :
        ℚ))) ∧
    (¬(0 < avgEloWhite df r.Player ∧ 0 < avgEloBlack df r.Player) →
      r.Elo = some ((pythonRound (max (avgEloWhite df r.Player) (avgEloBlack df r.Player)) :
        ℚ))) := by
  obtain ⟨hp, he⟩ := row_mem_main_stats_output hr
  have hE : r.Elo = some (eloAt df r.Player) := by rw [he]; rfl
  constructor
  · intro h1 h2
    rw [hE]
    unfold eloAt
    rw [if_pos ⟨h1, h2⟩]
  · intro h12
    rw [hE]
    unfold eloAt
    rw [if_neg h12]

/-- C2 witness: in the two-game scenario player A has positive average Elo in
both colors, and the output `Elo` is the rounded mean. -/
theorem single_color_elo_witness :
    (scenarioRowA ∈ main_stats_output dfScenario owConst ceConst ∧
        0 < avgEloWhite dfScenario scenarioRowA.Player ∧
        0 < avgEloBlack dfScenario scenarioRowA.Player) ∧
      scenarioRowA.Elo = some ((pythonRound ((avgEloWhite dfScenario scenarioRowA.Player +
        avgEloBlack dfScenario scenarioRowA.Player) / 2) : ℚ)) :=
  ⟨⟨by decide, by decide, by decide⟩,
    (single_color_elo dfScenario owConst ceConst scenarioRowA (by decide)).1
      (by decide) (by decide)⟩

/-- C3: Sort order — the output rows are in non-increasing order of `avg_gi`,
and rows with equal `avg_gi` keep their original relative (pre-sort) order:
the descending sort is stable, because pandas' `nargsort` reverses the rows
before the stable ascending argsort and reverses the indexer after, so the two
reversals cancel on tied rows. -/
theorem sort_order (df : List Game) (ow : ℚ → ℚ → ℚ → ℚ) (ce : ℚ → ℚ → ℚ) :
    List.Sorted (fun a b : OutputRow => b.avg_gi ≤ a.avg_gi) (main_stats_output df ow ce) ∧
      ∀ a b : OutputRow, List.Sublist [a, b] (pre_sort_output df ow ce) →
        a.avg_gi = b.avg_gi → List.Sublist [a, b] (main_stats_output df ow ce) := by
  constructor
  · unfold main_stats_output sort_values_desc
    have hs := List.sorted_insertionSort giLe (pre_sort_output df ow ce).reverse
    exact List.pairwise_reverse.mpr hs
  · intro a b hab he
    unfold main_stats_output sort_values_desc
    have h0 := hab.reverse
    have hba : ([a, b] : List OutputRow).reverse = [b, a] := rfl
    rw [hba] at h0
    have h1 : List.Sublist [b, a]
        (List.insertionSort giLe (pre_sort_output df ow ce).reverse) :=
      List.pair_sublist_insertionSort (le_of_eq he.symm) h0
    have h2 := h1.reverse
    have hab' : ([b, a] : List OutputRow).reverse = [a, b] := rfl
    rw [hab'] at h2
    exact h2

/-- C3 witness: in the tie run the two tied rows appear in the written output
in their pre-sort order A, B. -/
theorem sort_order_witness :
    List.Sublist [tieRowA, tieRowB] (main_stats_output dfTie owConst ceConst) :=
  (sort_order dfTie owConst ceConst).2 tieRowA tieRowB
    (by rw [show pre_sort_output dfTie owConst ceConst = [tieRowA, tieRowB] from by decide])
    (by decide)

/-- C4 counterexample: in the one-game table player A has exactly one pooled
gi observation; the statistics table holds NaN (`none`) for variance and
standard deviation — computed without failure — but the written row carries
the ordinary number 0 in `gi_var` and `gi_std`, because the merge's
`fillna(0)` replaces the NaN, so the output is not a not-a-number marker. -/
theorem single_observation_cex :
    (pooled dfSingle "A" (fun g => g.white_gi) fun g => g.black_gi).length = 1 ∧
      (lookup (gi_stats dfSingle) "A").map (fun s => (s.var, s.std)) = some (none, none) ∧
      ((main_stats_output dfSingle owConst ceConst).find? (fun r => r.Player == "A")).map
        (fun r => (r.gi_var, r.gi_std)) = some (0, 0) := by
  decide

/-- C4 as amended: for a player with exactly one pooled observation, variance
and standard deviation are the defined not-a-number value (`none`) in the
dispersion-statistics tables — their computation is total, not a failure — and
the zero fill of the subsequent merge turns the cells carried into the
player's final row into the ordinary number 0, for all four quality metrics. -/
theorem single_observation (df : List Game) (ow : ℚ → ℚ → ℚ → ℚ) (ce : ℚ → ℚ → ℚ)
    (r : String × PlayerStatsFull) (hr : r ∈ player_stats_full df ow ce)
    (h1 : (pooled df r.1 (fun g => g.white_gi) fun g => g.black_gi).length = 1) :
    (varQ (pooled df r.1 (fun g => g.white_gi) fun g => g.black_gi) = none ∧
      varQ (pooled df r.1 (fun g => g.white_gi_raw) fun g => g.black_gi_raw) = none ∧
      varQ (pooled df r.1 (fun g => g.white_gpl) fun g => g.black_gpl) = none ∧
      varQ (pooled df r.1 (fun g => g.white_acpl) fun g => g.black_acpl) = none) ∧
    (r.2.gi.var = 0 ∧ r.2.gi.std = 0 ∧ r.2.gi_raw.var = 0 ∧ r.2.gi_raw.std = 0 ∧
      r.2.gpl.var = 0 ∧ r.2.gpl.std = 0 ∧ r.2.acpl.var = 0 ∧ r.2.acpl.std = 0) := by
  obtain ⟨hp, he⟩ := row_mem_player_stats_full hr
  rw [pooled_length] at h1
  have hv : ∀ wcol bcol : Game → ℚ, varQ (pooled df r.1 wcol bcol) = none := by
    intro wcol bcol
    unfold varQ
    rw [if_pos (le_of_eq ((pooled_length df r.1 wcol bcol).trans h1))]
  refine ⟨⟨hv _ _, hv _ _, hv _ _, hv _ _⟩, ?_⟩
  rw [he]
  simp [rowAt, avgRowAt, baseRowAt, fillStats, statsRowAt, hv]

/-- C4 witness: the amended statement evaluated on the one-game table. -/
theorem single_observation_witness :
    (singlePairA ∈ player_stats_full dfSingle owConst ceConst ∧
        (pooled dfSingle "A" (fun g => g.white_gi) fun g => g.black_gi).length = 1) ∧
      (varQ (pooled dfSingle "A" (fun g => g.white_gi) fun g => g.black_gi) = none ∧
        singlePairA.2.gi.var = 0) :=
  ⟨⟨by decide, by decide⟩,
    ⟨(single_observation dfSingle owConst ceConst singlePairA (by decide) (by decide)).1.1,
      (single_observation dfSingle owConst ceConst singlePairA (by decide) (by decide)).2.1⟩⟩

/-- C9: if the input path does not exist, the run reports `File not found` and
terminates normally (the model is a total function — an early return, not an
exception), producing no output and leaving the filesystem unchanged. -/
theorem missing_input_file (fs : List (String × List Game)) (inPath outDir : String)
    (ow : ℚ → ℚ → ℚ → ℚ) (ce : ℚ → ℚ → ℚ) (h : os_path_exists fs inPath = false) :
    main_stats fs inPath outDir ow ce = ⟨fs, none, ["File not found: " ++ inPath]⟩ := by
  have hn : lookup fs inPath = none := by
    cases hfind : fs.find? fun f => f.1 == inPath with
    | none => simp [lookup, hfind]
    | some v =>
      rw [os_path_exists, hfind] at h
      simp at h
  unfold main_stats
  rw [hn]

/-- C9 witness: a run on a one-file filesystem with an absent input path. -/
theorem missing_input_file_witness :
    os_path_exists fsW "absent.csv" = false ∧
      main_stats fsW "absent.csv" "out" owConst ceConst =
        ⟨fsW, none, ["File not found: " ++ "absent.csv"]⟩ :=
  ⟨by decide, missing_input_file fsW "absent.csv" "out" owConst ceConst (by decide)⟩

end ChessStats
